import Mathlib

/-!
Verification of `src/bin/snarkify.rs` from the Poseidon-Circuit repository.

The file embeds the data model of the binary — the `ProofType` wire
enumeration, the `Task` input, the `ProofDetail` output, the stage-tagged
`Error` enumeration with its smart constructors — and the `ProofHandler`
implementation `PoseidonProver::prove`, then proves or refutes the frozen
claims about them.

`plonk::Error` from halo2 is opaque to this binary: the source only ever
formats it with `format!("{err:?}")`, so it is modelled as a carrier of its
Debug-format text.
-/

namespace Snarkify

/-- Model of the `ProofType` enum of `snarkify.rs`. -/
inductive ProofType where
  | Undefined
  | Chunk
  | Batch
  deriving DecidableEq, Repr

/-- Model of `ProofType::from_u8`: `1 => Chunk`, `2 => Batch`, `_ => Undefined`.
The Rust argument is a `u8`; values are the naturals below 256. -/
def ProofType.from_u8 (v : Nat) : ProofType :=
  match v with
  | 1 => ProofType.Chunk
  | 2 => ProofType.Batch
  | _ => ProofType.Undefined

/-- Model of `impl Serialize for ProofType`: the integer handed to
`serializer.serialize_i8` for each variant. -/
def ProofType.serialize : ProofType → Nat
  | ProofType.Undefined => 0
  | ProofType.Chunk => 1
  | ProofType.Batch => 2

/-- Model of `impl Deserialize for ProofType`: deserialize a `u8`, then
`ProofType::from_u8`; it never rejects a byte. -/
def ProofType.deserialize (v : Nat) : ProofType :=
  ProofType.from_u8 v

/-- Model of `impl Default for ProofType`. -/
def ProofType.default : ProofType := ProofType.Undefined

/-- Model of the `Task` struct: the input to the handler. -/
structure Task where
  uuid : String
  id : String
  task_type : ProofType
  task_data : String
  hard_fork_name : String
  deriving DecidableEq, Repr

/-- Model of the `ProofDetail` struct: the output of the handler. -/
structure ProofDetail where
  id : String
  proof_type : ProofType
  proof_data : String
  error : String
  deriving DecidableEq, Repr

/-- Opaque model of `halo2_proofs::plonk::Error`: the binary only ever
formats it with `format!("{err:?}")`, so the model carries that
Debug-format text. -/
structure PlonkError where
  debug : String
  deriving DecidableEq, Repr

/-- Model of the stage-tagged `Error` enum of `snarkify.rs`. -/
inductive Error where
  | WhileKeygenVk (plonk_error : String)
  | WhileKeygenPk (plonk_error : String)
  | PubInputOutOfField (public_input : String)
  | WhileProve (plonk_error : String)
  | WhileVerify (plonk_error : String)
  deriving DecidableEq, Repr

/-- Model of `Error::while_keygen_vk`. -/
def Error.while_keygen_vk (err : PlonkError) : Error :=
  Error.WhileKeygenVk err.debug

/-- Model of `Error::while_keygen_pk`. -/
def Error.while_keygen_pk (err : PlonkError) : Error :=
  Error.WhileKeygenPk err.debug

/-- Model of `Error::while_prove`. -/
def Error.while_prove (err : PlonkError) : Error :=
  Error.WhileProve err.debug

/-- Model of `Error::while_verify`. As in the source (line 167), the body
builds `Self::WhileProve`, not `Self::WhileVerify`. -/
def Error.while_verify (err : PlonkError) : Error :=
  Error.WhileProve err.debug

/-- Model of `PoseidonProver::prove` (the `ProofHandler` implementation):
the body unconditionally returns `Ok` with the task id, the task type,
the literal string "proof" as proof data and the literal string "error"
as the error field. -/
def PoseidonProver.prove (input : Task) : Except Error ProofDetail :=
  Except.ok
    { id := input.id
      proof_type := input.task_type
      proof_data := "proof"
      error := "error" }

/-- The valid Chunk task of claim C1: id "t1", type 1 (Chunk), a valid
Poseidon witness as task data. -/
def taskT1 : Task :=
  { uuid := "u1"
    id := "t1"
    task_type := ProofType.Chunk
    task_data := "valid-poseidon-witness"
    hard_fork_name := "" }

/-- A task whose declared public input value is the BN254 scalar-field
modulus, hence does not reduce into the field (claim C2). -/
def taskOutOfField : Task :=
  { uuid := "u2"
    id := "t2"
    task_type := ProofType.Chunk
    task_data := "21888242871839275222246405745257275088548364400416034343698204186575808495617"
    hard_fork_name := "" }

/-- A task with an undecodable payload (claim C7). -/
def taskMalformed : Task :=
  { uuid := "u3"
    id := "t3"
    task_type := ProofType.Batch
    task_data := "not-a-decodable-payload"
    hard_fork_name := "" }

/-- A task for the C10 witness. -/
def taskA : Task :=
  { uuid := "uA"
    id := "same"
    task_type := ProofType.Chunk
    task_data := "dataA"
    hard_fork_name := "forkA" }

/-- A task agreeing with `taskA` on id and task type only. -/
def taskB : Task :=
  { uuid := "uB"
    id := "same"
    task_type := ProofType.Chunk
    task_data := "dataB"
    hard_fork_name := "forkB" }

/-- C1: refuted on the code. On the valid Chunk task the handler succeeds,
yet the returned `ProofDetail` carries the hardcoded error string "error",
which is not empty — contradicting the claim that a success has an empty
error string. -/
theorem c1_error_nonempty_on_success :
    PoseidonProver.prove taskT1 =
      Except.ok
        { id := "t1", proof_type := ProofType.Chunk,
          proof_data := "proof", error := "error" } ∧
    ("error" : String) ≠ "" := by
  exact ⟨rfl, by decide⟩

/-- C2: refuted on the code. On a task whose public input value is the
field modulus (hence out of the scalar field), the handler still returns
`Ok` with the hardcoded payload; it never fails with
`PubInputOutOfField` — no validation exists in `prove`. -/
theorem c2_no_pub_input_out_of_field :
    PoseidonProver.prove taskOutOfField =
      Except.ok
        { id := "t2", proof_type := ProofType.Chunk,
          proof_data := "proof", error := "error" } := by
  exact rfl

/-- C3: refuted on the code. `Error::while_verify` builds the `WhileProve`
variant, not `WhileVerify`: a self-verification failure would be
mislabelled as a proving-stage failure. -/
theorem c3_while_verify_mislabelled :
    Error.while_verify { debug := "ConstraintSystemFailure" } =
      Error.WhileProve "ConstraintSystemFailure" ∧
    Error.while_verify { debug := "ConstraintSystemFailure" } ≠
      Error.WhileVerify "ConstraintSystemFailure" := by
  exact ⟨rfl, by decide⟩

/-- C4: decoding the proof-type wire integer yields Chunk at 1, Batch at 2,
and Undefined at 0 and at every other byte value; decoding is total, so it
never fails. -/
theorem c4_from_u8_decode (v : Nat) (hv : v < 256) (h1 : v ≠ 1) (h2 : v ≠ 2) :
    ProofType.from_u8 1 = ProofType.Chunk ∧
    ProofType.from_u8 2 = ProofType.Batch ∧
    ProofType.from_u8 0 = ProofType.Undefined ∧
    ProofType.from_u8 v = ProofType.Undefined := by
  refine ⟨rfl, rfl, rfl, ?_⟩
  cases v with
  | zero => rfl
  | succ n =>
    cases n with
    | zero => exact absurd rfl h1
    | succ m =>
      cases m with
      | zero => exact absurd rfl h2
      | succ k => rfl

/-- Witness for C4 at the concrete unrecognized byte 99. -/
theorem c4_from_u8_decode_witness :
    ((99 : Nat) < 256 ∧ (99 : Nat) ≠ 1 ∧ (99 : Nat) ≠ 2) ∧
    (ProofType.from_u8 1 = ProofType.Chunk ∧
     ProofType.from_u8 2 = ProofType.Batch ∧
     ProofType.from_u8 0 = ProofType.Undefined ∧
     ProofType.from_u8 99 = ProofType.Undefined) :=
  ⟨⟨by decide, by decide, by decide⟩,
   c4_from_u8_decode 99 (by decide) (by decide) (by decide)⟩

/-- C5: serializing any `ProofType` to its wire integer and decoding it
back is the identity. -/
theorem c5_wire_roundtrip (t : ProofType) :
    ProofType.from_u8 (ProofType.serialize t) = t := by
  cases t <;> rfl

/-- C6: for every task, the handler returns a `ProofDetail` whose id is
the task id and whose proof type is the task type. -/
theorem c6_id_and_type_copied (input : Task) :
    ∃ d : ProofDetail, PoseidonProver.prove input = Except.ok d ∧
      d.id = input.id ∧ d.proof_type = input.task_type :=
  ⟨_, rfl, rfl, rfl⟩

/-- C7: refuted on the code. On a task with an undecodable payload the
handler returns the hardcoded `ProofDetail` with proof data "proof" — not
empty — and error "error" — not a decode-stage diagnostic; the payload is
never inspected. -/
theorem c7_malformed_payload_ignored :
    PoseidonProver.prove taskMalformed =
      Except.ok
        { id := "t3", proof_type := ProofType.Batch,
          proof_data := "proof", error := "error" } ∧
    ("proof" : String) ≠ "" := by
  exact ⟨rfl, by decide⟩

/-- C8: the key-generation and proving stage constructors each produce the
variant of their own stage, carrying the Debug-format text of the
underlying plonk error. -/
theorem c8_stage_tagged_constructors (e : PlonkError) :
    Error.while_keygen_vk e = Error.WhileKeygenVk e.debug ∧
    Error.while_keygen_pk e = Error.WhileKeygenPk e.debug ∧
    Error.while_prove e = Error.WhileProve e.debug :=
  ⟨rfl, rfl, rfl⟩

/-- C9: the handler returns `Ok` on every task; the `Err` branch of its
result type is unreachable. -/
theorem c9_prove_always_ok (input : Task) :
    ∃ d : ProofDetail, PoseidonProver.prove input = Except.ok d :=
  ⟨_, rfl⟩

/-- C10: the handler is deterministic and its output depends only on the
task id and task type: two tasks agreeing on those two fields produce
identical results, whatever their uuid, task data and hard-fork name. -/
theorem c10_depends_only_on_id_and_type (t1 t2 : Task)
    (hid : t1.id = t2.id) (hty : t1.task_type = t2.task_type) :
    PoseidonProver.prove t1 = PoseidonProver.prove t2 := by
  unfold PoseidonProver.prove
  rw [hid, hty]

/-- Witness for C10 on two concrete tasks that agree on id and task type
but differ in uuid, task data and hard-fork name. -/
theorem c10_depends_only_on_id_and_type_witness :
    (taskA.id = taskB.id ∧ taskA.task_type = taskB.task_type) ∧
    PoseidonProver.prove taskA = PoseidonProver.prove taskB :=
  ⟨⟨rfl, rfl⟩, c10_depends_only_on_id_and_type taskA taskB rfl rfl⟩

end Snarkify
